import Mathlib

/-!
Verification of the deterministic scoring pipeline of an SME financial-health
assessment backend (`backend/services/financial_analyzer.py` and
`backend/services/credit_scoring.py`).

Embedding conventions:
* Python floats are modelled as exact rationals (`ℚ`); the pipeline only
  applies +, -, *, /, abs, min, max and comparisons to its inputs.
* Python dicts holding labelled monetary line items are modelled as
  association lists `List (String × ℚ)`; a missing nested key
  (`dict.get(k, {})` / `dict.get(k, 0)`) resolves to the empty mapping /
  `0`, so a structure field stands for the value after default resolution.
* `s.lower()` is modelled character-wise (`Char.toLower`), which is what
  `String.toLower` does; keyword literals in the sources are lower-case.
* Timestamps (`datetime`) are modelled as integer day counts; the sources
  only subtract them (`timedelta(days=...)`, `.days`), compare them, and
  divide the day difference by 365.
* A raised Python exception is modelled as `Except.error`; a normal
  `return` is `Except.ok`.  Functions that cannot raise are plain functions.
* The `details` annotation dictionaries built alongside the sub-scores
  (free-text commentary never read back by the pipeline) are omitted, as is
  the database session: the transaction list a query would return is passed
  directly.
-/

namespace FinCore

/-- `startsWithChars needle hay`: `needle` is an initial segment of `hay`
(char-list version of Python `hay.startswith(needle)`). -/
def startsWithChars : List Char → List Char → Bool
  | [], _ => true
  | _ :: _, [] => false
  | a :: as, b :: bs => a == b && startsWithChars as bs

/-- Char-list version of Python substring containment `needle in hay`. -/
def containsChars : List Char → List Char → Bool
  | [], needle => startsWithChars needle []
  | h :: t, needle => startsWithChars needle (h :: t) || containsChars t needle

/-- Python `kw in s.lower()` (the keyword literals in the sources are already
lower-case, so only the scanned string is lowered). -/
def strContainsKw (s kw : String) : Bool :=
  containsChars (s.toList.map Char.toLower) kw.toList

/-- The slice of a normalized balance sheet read by
`FinancialAnalyzer.calculate_liquidity_ratios`:
`assets.current_assets` and `liabilities.current_liabilities`, each a mapping
label → amount (absent nested keys resolve to the empty mapping). -/
structure BalanceSheet where
  current_assets : List (String × ℚ)
  current_liabilities : List (String × ℚ)
deriving DecidableEq

/-- Result of `calculate_liquidity_ratios` (the `liquidity` ratio group). -/
structure LiquidityRatios where
  current_ratio : ℚ
  quick_ratio : ℚ
  cash_ratio : ℚ
deriving DecidableEq

/-- `FinancialAnalyzer.calculate_liquidity_ratios`
(financial_analyzer.py lines 17-46). -/
def calculate_liquidity_ratios (balance_sheet : BalanceSheet) : LiquidityRatios :=
  let current_assets := (balance_sheet.current_assets.map Prod.snd).sum
  let current_liabilities := (balance_sheet.current_liabilities.map Prod.snd).sum
  let cash_items := balance_sheet.current_assets
  let cash := ((cash_items.filter
      (fun kv => strContainsKw kv.1 "cash" || strContainsKw kv.1 "bank")).map Prod.snd).sum
  let inventory := ((cash_items.filter
      (fun kv => strContainsKw kv.1 "inventory")).map Prod.snd).sum
  let quick_assets := current_assets - inventory
  { current_ratio := if current_liabilities > 0 then current_assets / current_liabilities else 0
    quick_ratio := if current_liabilities > 0 then quick_assets / current_liabilities else 0
    cash_ratio := if current_liabilities > 0 then cash / current_liabilities else 0 }

/-- A transaction row as read by the analyzers: its date (day count), signed
amount, and free-text category (`None` allowed, and tested for truthiness
before matching — an absent category matches no keyword, as does `""`). -/
structure Transaction where
  transaction_date : Int
  amount : ℚ
  category : Option String
deriving DecidableEq

/-- Python `txn.category and any(kw in txn.category.lower() for kw in kws)`.
(`None` and `""` are falsy; `""` also contains none of the non-empty
keywords, so the `Option` test alone is faithful.) -/
def catMatches (category : Option String) (kws : List String) : Bool :=
  match category with
  | none => false
  | some c => kws.any (fun kw => strContainsKw c kw)

/-- The four cash-flow bucket lists built by the loop in `analyze_cash_flow`
(financial_analyzer.py lines 166-179). -/
structure FlowBuckets where
  operating_inflows : List ℚ
  operating_outflows : List ℚ
  investing_outflows : List ℚ
  financing_inflows : List ℚ
deriving DecidableEq

def initialBuckets : FlowBuckets := ⟨[], [], [], []⟩

/-- One iteration of the categorization loop in `analyze_cash_flow`
(financial_analyzer.py lines 171-179): an `if/elif` chain, so a transaction
is appended to the first matching bucket only. -/
def bucketStep (b : FlowBuckets) (txn : Transaction) : FlowBuckets :=
  if catMatches txn.category ["revenue"] then
    { b with operating_inflows := b.operating_inflows ++ [txn.amount] }
  else if catMatches txn.category ["expense", "cost", "salary"] then
    { b with operating_outflows := b.operating_outflows ++ [|txn.amount|] }
  else if catMatches txn.category ["asset", "equipment", "investment"] then
    { b with investing_outflows := b.investing_outflows ++ [|txn.amount|] }
  else if catMatches txn.category ["loan", "equity", "financing"] then
    { b with financing_inflows := b.financing_inflows ++ [txn.amount] }
  else b

/-- The analysis dictionary built by `analyze_cash_flow` on the non-empty
path (nested `operating/investing/financing` sub-dicts flattened to fields;
`monthly_burn_rate` is `none` when the key is absent). -/
structure CashFlowAnalysis where
  operating_inflows : ℚ
  operating_outflows : ℚ
  operating_net : ℚ
  investing_outflows : ℚ
  investing_net : ℚ
  financing_inflows : ℚ
  financing_net : ℚ
  total_net_cash_flow : ℚ
  monthly_burn_rate : Option ℚ
deriving DecidableEq

/-- The two dictionary shapes `analyze_cash_flow` can return: the
`{"error": ...}` dictionary of the empty-sample path, or the analysis. -/
inductive CashFlowResult where
  | errorDict (msg : String)
  | analysis (a : CashFlowAnalysis)
deriving DecidableEq

/-- `FinancialAnalyzer.analyze_cash_flow` (financial_analyzer.py lines
143-209).  The database query is modelled by its effect: keep the supplied
transactions dated within the trailing `months * 30` days of `now` and
process them in date order.  A raised exception would be `Except.error`;
every path of the source `return`s, so every path here is `Except.ok`. -/
def analyze_cash_flow (transactions : List Transaction) (months : Int) (now : Int) :
    Except String CashFlowResult :=
  let start_date := now - months * 30
  let txns := (transactions.filter
      (fun t => decide (start_date ≤ t.transaction_date))).mergeSort
      (fun a b => decide (a.transaction_date ≤ b.transaction_date))
  if txns.isEmpty then
    Except.ok (.errorDict "No transaction data available")
  else
    let b := txns.foldl bucketStep initialBuckets
    let operating_net := b.operating_inflows.sum - b.operating_outflows.sum
    let investing_net := -b.investing_outflows.sum
    let financing_net := b.financing_inflows.sum
    let total := operating_net + investing_net + financing_net
    Except.ok (.analysis
      { operating_inflows := b.operating_inflows.sum
        operating_outflows := b.operating_outflows.sum
        operating_net := operating_net
        investing_outflows := b.investing_outflows.sum
        investing_net := investing_net
        financing_inflows := b.financing_inflows.sum
        financing_net := financing_net
        total_net_cash_flow := total
        monthly_burn_rate :=
          if operating_net < 0 then some (|operating_net| / (months : ℚ)) else none })

/-- The `profitability` ratio group of `calculate_all_ratios`. -/
structure ProfitabilityRatios where
  gross_profit_margin : ℚ
  operating_profit_margin : ℚ
  net_profit_margin : ℚ
  return_on_assets : ℚ
  return_on_equity : ℚ
deriving DecidableEq

/-- The `leverage` ratio group of `calculate_all_ratios`. -/
structure LeverageRatios where
  debt_to_equity : ℚ
  debt_to_assets : ℚ
  equity_ratio : ℚ
deriving DecidableEq

/-- The `efficiency` ratio group of `calculate_all_ratios`. -/
structure EfficiencyRatios where
  asset_turnover : ℚ
  receivables_turnover : ℚ
  days_sales_outstanding : ℚ
  inventory_turnover : ℚ
  days_inventory_outstanding : ℚ
deriving DecidableEq

/-- The four named ratio groups produced by
`FinancialAnalyzer.calculate_all_ratios`. -/
structure RatioSet where
  liquidity : LiquidityRatios
  profitability : ProfitabilityRatios
  leverage : LeverageRatios
  efficiency : EfficiencyRatios
deriving DecidableEq

/-- The `financial_data` dictionary consumed by the credit-scoring engine
(only its `ratios` entry is ever read). -/
structure FinancialData where
  ratios : RatioSet
deriving DecidableEq

/-- Company attributes read by the credit-scoring engine.  `founded_date` is
a day count; both fields are nullable, and Python truthiness makes a `0`
`annual_revenue` behave like `None` (modelled explicitly below). -/
structure Company where
  founded_date : Option Int
  annual_revenue : Option ℚ
deriving DecidableEq

/-- `settings.CREDIT_SCORE_MIN` (config.py line 92). -/
def CREDIT_SCORE_MIN : Int := 300

/-- `settings.CREDIT_SCORE_MAX` (config.py line 93). -/
def CREDIT_SCORE_MAX : Int := 900

/-- `CreditScoringEngine.calculate_payment_history_score` (credit_scoring.py
lines 24-57), as a function of the transaction sample the query returns
(most recent ≤ 100 rows; the score depends only on emptiness and length). -/
def calculate_payment_history_score (transactions : List Transaction) : Int :=
  if transactions.isEmpty then 150
  else
    let score : Int := 250
    let score := if transactions.length < 10 then score - 50 else score
    score

/-- `CreditScoringEngine.calculate_credit_utilization_score`
(credit_scoring.py lines 59-93). -/
def calculate_credit_utilization_score (financial_data : FinancialData) : Int :=
  let debt_to_equity := financial_data.ratios.leverage.debt_to_equity
  if debt_to_equity = 0 then 200
  else if debt_to_equity < 0.5 then 180
  else if debt_to_equity < 1 then 160
  else if debt_to_equity < 2 then 120
  else 80

/-- `CreditScoringEngine.calculate_liquidity_score` (credit_scoring.py lines
95-143). -/
def calculate_liquidity_score (financial_data : FinancialData) : Int :=
  let current_ratio := financial_data.ratios.liquidity.current_ratio
  let quick_ratio := financial_data.ratios.liquidity.quick_ratio
  let current_part : Int :=
    if current_ratio ≥ 2 then 100
    else if current_ratio ≥ 1.5 then 80
    else if current_ratio ≥ 1 then 60
    else 30
  let quick_part : Int :=
    if quick_ratio ≥ 1.5 then 100
    else if quick_ratio ≥ 1 then 80
    else if quick_ratio ≥ 0.75 then 60
    else 30
  min (current_part + quick_part) 200

/-- `CreditScoringEngine.calculate_profitability_score` (credit_scoring.py
lines 145-182). -/
def calculate_profitability_score (financial_data : FinancialData) : Int :=
  let net_margin := financial_data.ratios.profitability.net_profit_margin
  if net_margin ≥ 20 then 150
  else if net_margin ≥ 15 then 130
  else if net_margin ≥ 10 then 110
  else if net_margin ≥ 5 then 80
  else if net_margin > 0 then 50
  else 0

/-- `CreditScoringEngine.calculate_business_stability_score`
(credit_scoring.py lines 184-237).  `years = (now - founded).days / 365`;
`if company.annual_revenue:` is Python truthiness, so revenue `0` takes the
`else` branch (which awards the same 20 points as the lowest tier). -/
def calculate_business_stability_score (company : Company) (now : Int) : Int :=
  let years_part : Int :=
    match company.founded_date with
    | some founded =>
      let years : ℚ := ((now - founded : Int) : ℚ) / 365
      if years ≥ 10 then 50
      else if years ≥ 5 then 40
      else if years ≥ 3 then 30
      else if years ≥ 1 then 20
      else 10
    | none => 20
  let size_part : Int :=
    match company.annual_revenue with
    | some rev =>
      if rev ≠ 0 then
        if rev ≥ 10000000 then 50
        else if rev ≥ 5000000 then 40
        else if rev ≥ 1000000 then 30
        else 20
      else 20
    | none => 20
  min (years_part + size_part) 100

/-- Risk severity levels (`database/models.py` lines 32-37). -/
inductive RiskLevel where
  | low
  | medium
  | high
  | critical
deriving DecidableEq

/-- The string payload of each `RiskLevel` enum member. -/
def RiskLevel.value : RiskLevel → String
  | .low => "Low"
  | .medium => "Medium"
  | .high => "High"
  | .critical => "Critical"

/-- `CreditScoringEngine.get_grade_and_risk` (credit_scoring.py lines
312-330). -/
def get_grade_and_risk (score : Int) : String × String :=
  if score ≥ 800 then ("A+", RiskLevel.low.value)
  else if score ≥ 750 then ("A", RiskLevel.low.value)
  else if score ≥ 700 then ("B+", RiskLevel.low.value)
  else if score ≥ 650 then ("B", RiskLevel.medium.value)
  else if score ≥ 600 then ("C+", RiskLevel.medium.value)
  else if score ≥ 550 then ("C", RiskLevel.medium.value)
  else if score ≥ 500 then ("D+", RiskLevel.high.value)
  else ("D", RiskLevel.high.value)

/-- `suggestions_map.get(weakness, f"Improve {weakness}")` inside
`CreditScoringEngine.generate_improvement_suggestions` (credit_scoring.py
lines 332-343). -/
def suggestions_map_get (weakness : String) : String :=
  if weakness = "payment_history" then
    "Maintain consistent payment schedules to vendors and creditors"
  else if weakness = "credit_utilization" then
    "Reduce debt levels or increase equity to improve leverage ratios"
  else if weakness = "liquidity" then
    "Build cash reserves and improve working capital management"
  else if weakness = "profitability" then
    "Focus on increasing profit margins through cost optimization or revenue growth"
  else if weakness = "stability" then
    "Continue building business track record and growing revenue"
  else "Improve " ++ weakness

def generate_improvement_suggestions (weaknesses : List String) : List String :=
  weaknesses.map suggestions_map_get

/-- The `component_scores` dictionary of `calculate_credit_score`
(credit_scoring.py lines 285-291): each component score as a percentage of
its maximum. -/
def component_scores (payment utilization liq profit stability : Int) :
    List (String × ℚ) :=
  [("payment_history", (payment : ℚ) / 250 * 100),
   ("credit_utilization", (utilization : ℚ) / 200 * 100),
   ("liquidity", (liq : ℚ) / 200 * 100),
   ("profitability", (profit : ℚ) / 150 * 100),
   ("stability", (stability : ℚ) / 100 * 100)]

/-- The result dictionary of `calculate_credit_score` (the `breakdown`
sub-dicts flattened to the five component-score fields; their `max` entries
are the constants 250/200/200/150/100). -/
structure CreditScoreResult where
  score : Int
  grade : String
  risk_category : String
  payment_history_score : Int
  credit_utilization_score : Int
  liquidity_score : Int
  profitability_score : Int
  business_stability_score : Int
  strengths : List String
  weaknesses : List String
  improvement_suggestions : List String
deriving DecidableEq

/-- The body of `CreditScoringEngine.calculate_credit_score`
(credit_scoring.py lines 239-310) after the company has been resolved. -/
def credit_score_result (transactions : List Transaction)
    (financial_data : FinancialData) (company : Company) (now : Int) :
    CreditScoreResult :=
  let payment_score := calculate_payment_history_score transactions
  let utilization_score := calculate_credit_utilization_score financial_data
  let liquidity_score := calculate_liquidity_score financial_data
  let profitability_score := calculate_profitability_score financial_data
  let stability_score := calculate_business_stability_score company now
  let total_score := payment_score + utilization_score + liquidity_score +
    profitability_score + stability_score
  let total_score := max CREDIT_SCORE_MIN (min total_score CREDIT_SCORE_MAX)
  let gr := get_grade_and_risk total_score
  let comps := component_scores payment_score utilization_score liquidity_score
    profitability_score stability_score
  let strengths := (comps.filter (fun kv => decide ((80 : ℚ) ≤ kv.2))).map Prod.fst
  let weaknesses := (comps.filter (fun kv => decide (kv.2 < (60 : ℚ)))).map Prod.fst
  { score := total_score
    grade := gr.1
    risk_category := gr.2
    payment_history_score := payment_score
    credit_utilization_score := utilization_score
    liquidity_score := liquidity_score
    profitability_score := profitability_score
    business_stability_score := stability_score
    strengths := strengths
    weaknesses := weaknesses
    improvement_suggestions := generate_improvement_suggestions weaknesses }

/-- `CreditScoringEngine.calculate_credit_score` including the company
lookup: `raise ValueError("Company not found")` when the query resolves no
company, modelled as `Except.error`. -/
def calculate_credit_score (transactions : List Transaction)
    (financial_data : FinancialData) (companyOpt : Option Company) (now : Int) :
    Except String CreditScoreResult :=
  match companyOpt with
  | none => Except.error "Company not found"
  | some company =>
    Except.ok (credit_score_result transactions financial_data company now)

/-- The `score_breakdown` dictionary of
`calculate_financial_health_score`. -/
structure HealthBreakdown where
  liquidity : Int
  profitability : Int
  leverage : Int
  efficiency : Int
  cash_flow : Int
deriving DecidableEq

/-- The result dictionary of `calculate_financial_health_score`. -/
structure HealthScoreResult where
  total_score : Int
  grade : String
  breakdown : HealthBreakdown
  max_score : Int
deriving DecidableEq

/-- The `liquidity_score` tiering of `calculate_financial_health_score`
(financial_analyzer.py lines 226-235). -/
def health_liquidity_score (current_ratio : ℚ) : Int :=
  if current_ratio ≥ 2 then 25
  else if current_ratio ≥ 1.5 then 20
  else if current_ratio ≥ 1 then 15
  else 5

/-- The `profitability_score` tiering (financial_analyzer.py lines 237-249). -/
def health_profitability_score (net_margin : ℚ) : Int :=
  if net_margin ≥ 20 then 30
  else if net_margin ≥ 10 then 20
  else if net_margin ≥ 5 then 15
  else if net_margin > 0 then 10
  else 0

/-- The `leverage_score` tiering (financial_analyzer.py lines 251-261). -/
def health_leverage_score (debt_to_equity : ℚ) : Int :=
  if debt_to_equity ≤ 0.5 then 20
  else if debt_to_equity ≤ 1 then 15
  else if debt_to_equity ≤ 2 then 10
  else 5

/-- The `efficiency_score` tiering (financial_analyzer.py lines 263-271). -/
def health_efficiency_score (asset_turnover : ℚ) : Int :=
  if asset_turnover ≥ 2 then 15
  else if asset_turnover ≥ 1 then 10
  else 5

/-- The `cash_flow_score` tiering (financial_analyzer.py lines 273-279). -/
def health_cash_flow_score (net_cash_flow : ℚ) : Int :=
  if net_cash_flow > 0 then 10 else 0

/-- The grade banding of `calculate_financial_health_score`
(financial_analyzer.py lines 284-298). -/
def health_grade (total_score : Int) : String :=
  if total_score ≥ 90 then "A+"
  else if total_score ≥ 80 then "A"
  else if total_score ≥ 70 then "B+"
  else if total_score ≥ 60 then "B"
  else if total_score ≥ 50 then "C+"
  else if total_score ≥ 40 then "C"
  else "D"

/-- `FinancialAnalyzer.calculate_financial_health_score`
(financial_analyzer.py lines 211-305).  The `cash_flow` argument is whatever
`analyze_cash_flow` returned; `cash_flow.get("total_net_cash_flow", 0)` on
the `{"error": ...}` dictionary yields the default `0`. -/
def calculate_financial_health_score (ratios : RatioSet)
    (cash_flow : CashFlowResult) : HealthScoreResult :=
  let liquidity_score := health_liquidity_score ratios.liquidity.current_ratio
  let profitability_score :=
    health_profitability_score ratios.profitability.net_profit_margin
  let leverage_score := health_leverage_score ratios.leverage.debt_to_equity
  let efficiency_score := health_efficiency_score ratios.efficiency.asset_turnover
  let net_cash_flow : ℚ :=
    match cash_flow with
    | .analysis a => a.total_net_cash_flow
    | .errorDict _ => 0
  let cash_flow_score := health_cash_flow_score net_cash_flow
  let total_score := liquidity_score + profitability_score + leverage_score +
    efficiency_score + cash_flow_score
  { total_score := total_score
    grade := health_grade total_score
    breakdown :=
      { liquidity := liquidity_score
        profitability := profitability_score
        leverage := leverage_score
        efficiency := efficiency_score
        cash_flow := cash_flow_score }
    max_score := 100 }

/-- Total number of bucketed amounts across the four cash-flow buckets. -/
def bucketsLen (b : FlowBuckets) : Nat :=
  b.operating_inflows.length + b.operating_outflows.length +
    b.investing_outflows.length + b.financing_inflows.length

/-- C1: when the current-liabilities mapping sums to zero or a negative
number, all three liquidity ratios are 0; the computation is a total
function (it is a plain Lean function into `LiquidityRatios`, so it can
neither raise nor produce NaN/∞). -/
theorem C1_liquidity_ratios_zero_denominator (bs : BalanceSheet)
    (h : ((bs.current_liabilities.map Prod.snd).sum : ℚ) ≤ 0) :
    calculate_liquidity_ratios bs =
      { current_ratio := 0, quick_ratio := 0, cash_ratio := 0 } := by
  have h' : ¬ ((bs.current_liabilities.map Prod.snd).sum : ℚ) > 0 := not_lt.mpr h
  simp [calculate_liquidity_ratios, h']

theorem C1_liquidity_ratios_zero_denominator_witness :
    ((((⟨[("cash", 5)], [("payable", 0)]⟩ :
        BalanceSheet).current_liabilities.map Prod.snd).sum : ℚ) ≤ 0) ∧
    calculate_liquidity_ratios ⟨[("cash", 5)], [("payable", 0)]⟩ =
      { current_ratio := 0, quick_ratio := 0, cash_ratio := 0 } :=
  ⟨by simp, C1_liquidity_ratios_zero_denominator ⟨[("cash", 5)], [("payable", 0)]⟩ (by simp)⟩

/-- C8: on the balance sheet with current assets
{cash:100, bank:50, receivable:30, inventory:20} and current liabilities
{payable:100}, the liquidity ratios are current 2.0, quick 1.8, cash 1.5. -/
theorem C8_liquidity_ratios_example :
    calculate_liquidity_ratios
      { current_assets := [("cash", 100), ("bank", 50), ("receivable", 30), ("inventory", 20)]
        current_liabilities := [("payable", 100)] }
      = { current_ratio := 2, quick_ratio := 9/5, cash_ratio := 3/2 } := by
  have h1 : strContainsKw "cash" "cash" = true := by decide
  have h2 : strContainsKw "bank" "bank" = true := by decide
  have h3 : strContainsKw "bank" "cash" = false := by decide
  have h4 : strContainsKw "receivable" "cash" = false := by decide
  have h5 : strContainsKw "receivable" "bank" = false := by decide
  have h6 : strContainsKw "inventory" "cash" = false := by decide
  have h7 : strContainsKw "inventory" "bank" = false := by decide
  have h8 : strContainsKw "cash" "inventory" = false := by decide
  have h9 : strContainsKw "bank" "inventory" = false := by decide
  have h10 : strContainsKw "receivable" "inventory" = false := by decide
  have h11 : strContainsKw "inventory" "inventory" = true := by decide
  have h12 : strContainsKw "payable" "cash" = false := by decide
  simp only [calculate_liquidity_ratios, List.filter, h1, h2, h3, h4, h5, h6, h7, h8, h9, h10,
    h11, h12, Bool.or_true, Bool.true_or, Bool.or_false, Bool.false_or, List.map,
    LiquidityRatios.mk.injEq]
  norm_num

/-- C3: the grade/risk mapping of `get_grade_and_risk` uses inclusive lower
bounds: ≥800→A+/Low, ≥750→A/Low, ≥700→B+/Low, ≥650→B/Medium, ≥600→C+/Medium,
≥550→C/Medium, ≥500→D+/High, otherwise D/High. -/
theorem C3_grade_and_risk_inclusive_bounds (s : Int) :
    (800 ≤ s → get_grade_and_risk s = ("A+", "Low")) ∧
    (750 ≤ s → s < 800 → get_grade_and_risk s = ("A", "Low")) ∧
    (700 ≤ s → s < 750 → get_grade_and_risk s = ("B+", "Low")) ∧
    (650 ≤ s → s < 700 → get_grade_and_risk s = ("B", "Medium")) ∧
    (600 ≤ s → s < 650 → get_grade_and_risk s = ("C+", "Medium")) ∧
    (550 ≤ s → s < 600 → get_grade_and_risk s = ("C", "Medium")) ∧
    (500 ≤ s → s < 550 → get_grade_and_risk s = ("D+", "High")) ∧
    (s < 500 → get_grade_and_risk s = ("D", "High")) := by
  unfold get_grade_and_risk
  refine ⟨?_, ?_, ?_, ?_, ?_, ?_, ?_, ?_⟩ <;> intros <;> split_ifs <;>
    first
      | rfl
      | omega

theorem C3_grade_and_risk_inclusive_bounds_witness :
    get_grade_and_risk 800 = ("A+", "Low") ∧ get_grade_and_risk 799 = ("A", "Low") :=
  ⟨(C3_grade_and_risk_inclusive_bounds 800).1 (by norm_num),
   (C3_grade_and_risk_inclusive_bounds 799).2.1 (by norm_num) (by norm_num)⟩

/-- C9: for every integer score the risk category returned by
`get_grade_and_risk` is one of Low/Medium/High; the `Critical` member of the
`RiskLevel` enumeration is never returned. -/
theorem C9_risk_category_never_critical (s : Int) :
    ((get_grade_and_risk s).2 = RiskLevel.low.value ∨
     (get_grade_and_risk s).2 = RiskLevel.medium.value ∨
     (get_grade_and_risk s).2 = RiskLevel.high.value) ∧
    (get_grade_and_risk s).2 ≠ RiskLevel.critical.value := by
  unfold get_grade_and_risk
  split_ifs <;> decide

theorem C9_risk_category_never_critical_witness :
    (get_grade_and_risk 300).2 ≠ RiskLevel.critical.value :=
  (C9_risk_category_never_critical 300).2

/-- C5: the payment-history component is 150 on an empty transaction sample,
200 (= 250 − 50) on a non-empty sample of fewer than 10 transactions, and
250 on a sample of 10 or more. -/
theorem C5_payment_history_tiers (transactions : List Transaction) :
    (transactions = [] → calculate_payment_history_score transactions = 150) ∧
    (transactions ≠ [] → transactions.length < 10 →
      calculate_payment_history_score transactions = 200) ∧
    (10 ≤ transactions.length → calculate_payment_history_score transactions = 250) := by
  unfold calculate_payment_history_score
  refine ⟨?_, ?_, ?_⟩
  · intro h
    subst h
    rfl
  · intro h1 h2
    simp [h1, h2]
  · intro h
    have h1 : transactions ≠ [] := by
      intro he
      rw [he] at h
      simp at h
    have h2 : ¬ transactions.length < 10 := by omega
    simp [h1, h2]

theorem C5_payment_history_tiers_witness :
    calculate_payment_history_score [] = 150 ∧
    calculate_payment_history_score [⟨0, 5, some "revenue"⟩] = 200 ∧
    calculate_payment_history_score (List.replicate 10 ⟨0, 5, some "revenue"⟩) = 250 :=
  ⟨(C5_payment_history_tiers []).1 rfl,
   (C5_payment_history_tiers [⟨0, 5, some "revenue"⟩]).2.1 (by simp) (by simp),
   (C5_payment_history_tiers (List.replicate 10 ⟨0, 5, some "revenue"⟩)).2.2 (by simp)⟩

/-- C2 counterexample: on the empty transaction list (a fortiori an empty
lookback window) `analyze_cash_flow` does NOT raise — it returns normally
(`Except.ok`), handing back the `{"error": "No transaction data available"}`
dictionary as an ordinary value.  No `NoDataError` exists in the code. -/
theorem C2_counterexample_empty_sample_returns_normally :
    analyze_cash_flow [] 12 0 =
      Except.ok (CashFlowResult.errorDict "No transaction data available") := by
  simp [analyze_cash_flow]

/-- C2 amended: whenever no transaction falls within the trailing
`months * 30` days, `analyze_cash_flow` returns (does not raise) the
`{"error": "No transaction data available"}` dictionary. -/
theorem C2_no_window_data_returns_error_dict (transactions : List Transaction)
    (months now : Int)
    (h : transactions.filter
      (fun t => decide (now - months * 30 ≤ t.transaction_date)) = []) :
    analyze_cash_flow transactions months now =
      Except.ok (CashFlowResult.errorDict "No transaction data available") := by
  unfold analyze_cash_flow
  simp only []
  rw [h]
  simp

theorem C2_no_window_data_returns_error_dict_witness :
    (([⟨-400, 5, some "revenue"⟩] : List Transaction).filter
      (fun t => decide ((0 : Int) - 12 * 30 ≤ t.transaction_date)) = []) ∧
    analyze_cash_flow [⟨-400, 5, some "revenue"⟩] 12 0 =
      Except.ok (CashFlowResult.errorDict "No transaction data available") :=
  ⟨by decide, C2_no_window_data_returns_error_dict [⟨-400, 5, some "revenue"⟩] 12 0 (by decide)⟩

/-- C4: the credit score is the five component sub-scores summed and clamped
into [300, 900]; in particular it is always ≥ 300 and ≤ 900. -/
theorem C4_credit_score_sum_clamped (transactions : List Transaction)
    (financial_data : FinancialData) (company : Company) (now : Int) :
    ∃ r, calculate_credit_score transactions financial_data (some company) now =
        Except.ok r ∧
      r.score = max 300 (min (calculate_payment_history_score transactions +
          calculate_credit_utilization_score financial_data +
          calculate_liquidity_score financial_data +
          calculate_profitability_score financial_data +
          calculate_business_stability_score company now) 900) ∧
      300 ≤ r.score ∧ r.score ≤ 900 := by
  have hs : (credit_score_result transactions financial_data company now).score =
      max 300 (min (calculate_payment_history_score transactions +
        calculate_credit_utilization_score financial_data +
        calculate_liquidity_score financial_data +
        calculate_profitability_score financial_data +
        calculate_business_stability_score company now) 900) := rfl
  refine ⟨credit_score_result transactions financial_data company now, rfl, hs, ?_, ?_⟩
  · rw [hs]
    exact le_max_left _ _
  · rw [hs]
    exact max_le (by norm_num) (min_le_right _ _)

lemma health_liquidity_score_range (c : ℚ) :
    0 ≤ health_liquidity_score c ∧ health_liquidity_score c ≤ 25 := by
  unfold health_liquidity_score
  split_ifs <;> norm_num

lemma health_profitability_score_range (m : ℚ) :
    0 ≤ health_profitability_score m ∧ health_profitability_score m ≤ 30 := by
  unfold health_profitability_score
  split_ifs <;> norm_num

lemma health_leverage_score_range (d : ℚ) :
    0 ≤ health_leverage_score d ∧ health_leverage_score d ≤ 20 := by
  unfold health_leverage_score
  split_ifs <;> norm_num

lemma health_efficiency_score_range (a : ℚ) :
    0 ≤ health_efficiency_score a ∧ health_efficiency_score a ≤ 15 := by
  unfold health_efficiency_score
  split_ifs <;> norm_num

lemma health_cash_flow_score_range (n : ℚ) :
    0 ≤ health_cash_flow_score n ∧ health_cash_flow_score n ≤ 10 := by
  unfold health_cash_flow_score
  split_ifs <;> norm_num

lemma health_grade_of_ge_90 {t : Int} (h : 90 ≤ t) : health_grade t = "A+" := by
  unfold health_grade
  rw [if_pos (by omega : t ≥ 90)]

lemma health_grade_of_lt_40 {t : Int} (h : t < 40) : health_grade t = "D" := by
  unfold health_grade
  split_ifs <;> first | omega | rfl

/-- C7: the health score never fails, its total is the sum of the five
breakdown components, each component lies in its advertised range
(liquidity 0–25, profitability 0–30, leverage 0–20, efficiency 0–15,
cash flow 0–10), so the total is in [0, 100]; grade bands use inclusive
lower bounds, with ≥ 90 giving "A+" and < 40 giving "D". -/
theorem C7_health_score_bounds_and_grades (ratios : RatioSet)
    (cash_flow : CashFlowResult) :
    ((calculate_financial_health_score ratios cash_flow).total_score =
      (calculate_financial_health_score ratios cash_flow).breakdown.liquidity +
      (calculate_financial_health_score ratios cash_flow).breakdown.profitability +
      (calculate_financial_health_score ratios cash_flow).breakdown.leverage +
      (calculate_financial_health_score ratios cash_flow).breakdown.efficiency +
      (calculate_financial_health_score ratios cash_flow).breakdown.cash_flow) ∧
    (0 ≤ (calculate_financial_health_score ratios cash_flow).breakdown.liquidity ∧
      (calculate_financial_health_score ratios cash_flow).breakdown.liquidity ≤ 25) ∧
    (0 ≤ (calculate_financial_health_score ratios cash_flow).breakdown.profitability ∧
      (calculate_financial_health_score ratios cash_flow).breakdown.profitability ≤ 30) ∧
    (0 ≤ (calculate_financial_health_score ratios cash_flow).breakdown.leverage ∧
      (calculate_financial_health_score ratios cash_flow).breakdown.leverage ≤ 20) ∧
    (0 ≤ (calculate_financial_health_score ratios cash_flow).breakdown.efficiency ∧
      (calculate_financial_health_score ratios cash_flow).breakdown.efficiency ≤ 15) ∧
    (0 ≤ (calculate_financial_health_score ratios cash_flow).breakdown.cash_flow ∧
      (calculate_financial_health_score ratios cash_flow).breakdown.cash_flow ≤ 10) ∧
    (0 ≤ (calculate_financial_health_score ratios cash_flow).total_score ∧
      (calculate_financial_health_score ratios cash_flow).total_score ≤ 100) ∧
    (90 ≤ (calculate_financial_health_score ratios cash_flow).total_score →
      (calculate_financial_health_score ratios cash_flow).grade = "A+") ∧
    ((calculate_financial_health_score ratios cash_flow).total_score < 40 →
      (calculate_financial_health_score ratios cash_flow).grade = "D") := by
  have hl : 0 ≤ (calculate_financial_health_score ratios cash_flow).breakdown.liquidity ∧
      (calculate_financial_health_score ratios cash_flow).breakdown.liquidity ≤ 25 :=
    health_liquidity_score_range _
  have hp : 0 ≤ (calculate_financial_health_score ratios cash_flow).breakdown.profitability ∧
      (calculate_financial_health_score ratios cash_flow).breakdown.profitability ≤ 30 :=
    health_profitability_score_range _
  have hv : 0 ≤ (calculate_financial_health_score ratios cash_flow).breakdown.leverage ∧
      (calculate_financial_health_score ratios cash_flow).breakdown.leverage ≤ 20 :=
    health_leverage_score_range _
  have he : 0 ≤ (calculate_financial_health_score ratios cash_flow).breakdown.efficiency ∧
      (calculate_financial_health_score ratios cash_flow).breakdown.efficiency ≤ 15 :=
    health_efficiency_score_range _
  have hc : 0 ≤ (calculate_financial_health_score ratios cash_flow).breakdown.cash_flow ∧
      (calculate_financial_health_score ratios cash_flow).breakdown.cash_flow ≤ 10 :=
    health_cash_flow_score_range _
  have hsum : (calculate_financial_health_score ratios cash_flow).total_score =
      (calculate_financial_health_score ratios cash_flow).breakdown.liquidity +
      (calculate_financial_health_score ratios cash_flow).breakdown.profitability +
      (calculate_financial_health_score ratios cash_flow).breakdown.leverage +
      (calculate_financial_health_score ratios cash_flow).breakdown.efficiency +
      (calculate_financial_health_score ratios cash_flow).breakdown.cash_flow := rfl
  have hgr : (calculate_financial_health_score ratios cash_flow).grade =
      health_grade (calculate_financial_health_score ratios cash_flow).total_score := rfl
  refine ⟨hsum, hl, hp, hv, he, hc, ⟨?_, ?_⟩, ?_, ?_⟩
  · rw [hsum]
    omega
  · rw [hsum]
    omega
  · intro h90
    rw [hgr]
    exact health_grade_of_ge_90 h90
  · intro h40
    rw [hgr]
    exact health_grade_of_lt_40 h40

theorem C7_health_score_bounds_and_grades_witness :
    (90 ≤ (calculate_financial_health_score
        ⟨⟨2, 0, 0⟩, ⟨0, 0, 20, 0, 0⟩, ⟨0, 0, 0⟩, ⟨2, 0, 0, 0, 0⟩⟩
        (.analysis ⟨0, 0, 0, 0, 0, 0, 0, 1, none⟩)).total_score ∧
      (calculate_financial_health_score
        ⟨⟨2, 0, 0⟩, ⟨0, 0, 20, 0, 0⟩, ⟨0, 0, 0⟩, ⟨2, 0, 0, 0, 0⟩⟩
        (.analysis ⟨0, 0, 0, 0, 0, 0, 0, 1, none⟩)).grade = "A+") ∧
    ((calculate_financial_health_score
        ⟨⟨0, 0, 0⟩, ⟨0, 0, 0, 0, 0⟩, ⟨3, 0, 0⟩, ⟨0, 0, 0, 0, 0⟩⟩
        (.errorDict "No transaction data available")).total_score < 40 ∧
      (calculate_financial_health_score
        ⟨⟨0, 0, 0⟩, ⟨0, 0, 0, 0, 0⟩, ⟨3, 0, 0⟩, ⟨0, 0, 0, 0, 0⟩⟩
        (.errorDict "No transaction data available")).grade = "D") := by
  have h90 : 90 ≤ (calculate_financial_health_score
      ⟨⟨2, 0, 0⟩, ⟨0, 0, 20, 0, 0⟩, ⟨0, 0, 0⟩, ⟨2, 0, 0, 0, 0⟩⟩
      (.analysis ⟨0, 0, 0, 0, 0, 0, 0, 1, none⟩)).total_score := by
    norm_num [calculate_financial_health_score, health_liquidity_score,
      health_profitability_score, health_leverage_score, health_efficiency_score,
      health_cash_flow_score]
  have h40 : (calculate_financial_health_score
      ⟨⟨0, 0, 0⟩, ⟨0, 0, 0, 0, 0⟩, ⟨3, 0, 0⟩, ⟨0, 0, 0, 0, 0⟩⟩
      (.errorDict "No transaction data available")).total_score < 40 := by
    norm_num [calculate_financial_health_score, health_liquidity_score,
      health_profitability_score, health_leverage_score, health_efficiency_score,
      health_cash_flow_score]
  exact ⟨⟨h90, ((C7_health_score_bounds_and_grades _ _).2.2.2.2.2.2.2.1 h90)⟩,
    ⟨h40, ((C7_health_score_bounds_and_grades _ _).2.2.2.2.2.2.2.2 h40)⟩⟩

lemma mem_fst_filter_iff (g : String × ℚ → Bool) (n : String) (v : ℚ)
    (cs : List (String × ℚ)) (hmem : (n, v) ∈ cs)
    (huniq : ∀ w, (n, w) ∈ cs → w = v) :
    (n ∈ (cs.filter g).map Prod.fst ↔ g (n, v) = true) := by
  constructor
  · intro hx
    rcases List.mem_map.mp hx with ⟨x, hx', hfst⟩
    rcases List.mem_filter.mp hx' with ⟨hxl, hg⟩
    obtain ⟨x1, x2⟩ := x
    cases hfst
    have hv := huniq x2 hxl
    subst hv
    exact hg
  · intro h
    exact List.mem_map.mpr ⟨(n, v), List.mem_filter.mpr ⟨hmem, h⟩, rfl⟩

lemma strengths_iff (p u l pr st : Int) :
    ("payment_history" ∈ ((component_scores p u l pr st).filter
        (fun kv => decide ((80 : ℚ) ≤ kv.2))).map Prod.fst ↔
      (80 : ℚ) ≤ (p : ℚ) / 250 * 100) ∧
    ("credit_utilization" ∈ ((component_scores p u l pr st).filter
        (fun kv => decide ((80 : ℚ) ≤ kv.2))).map Prod.fst ↔
      (80 : ℚ) ≤ (u : ℚ) / 200 * 100) ∧
    ("liquidity" ∈ ((component_scores p u l pr st).filter
        (fun kv => decide ((80 : ℚ) ≤ kv.2))).map Prod.fst ↔
      (80 : ℚ) ≤ (l : ℚ) / 200 * 100) ∧
    ("profitability" ∈ ((component_scores p u l pr st).filter
        (fun kv => decide ((80 : ℚ) ≤ kv.2))).map Prod.fst ↔
      (80 : ℚ) ≤ (pr : ℚ) / 150 * 100) ∧
    ("stability" ∈ ((component_scores p u l pr st).filter
        (fun kv => decide ((80 : ℚ) ≤ kv.2))).map Prod.fst ↔
      (80 : ℚ) ≤ (st : ℚ) / 100 * 100) := by
  refine ⟨?_, ?_, ?_, ?_, ?_⟩
  · rw [mem_fst_filter_iff _ "payment_history" ((p : ℚ) / 250 * 100) _
      (by simp [component_scores]) (by intro w hw; simpa [component_scores] using hw)]
    simp
  · rw [mem_fst_filter_iff _ "credit_utilization" ((u : ℚ) / 200 * 100) _
      (by simp [component_scores]) (by intro w hw; simpa [component_scores] using hw)]
    simp
  · rw [mem_fst_filter_iff _ "liquidity" ((l : ℚ) / 200 * 100) _
      (by simp [component_scores]) (by intro w hw; simpa [component_scores] using hw)]
    simp
  · rw [mem_fst_filter_iff _ "profitability" ((pr : ℚ) / 150 * 100) _
      (by simp [component_scores]) (by intro w hw; simpa [component_scores] using hw)]
    simp
  · rw [mem_fst_filter_iff _ "stability" ((st : ℚ) / 100 * 100) _
      (by simp [component_scores]) (by intro w hw; simpa [component_scores] using hw)]
    simp

lemma weaknesses_iff (p u l pr st : Int) :
    ("payment_history" ∈ ((component_scores p u l pr st).filter
        (fun kv => decide (kv.2 < (60 : ℚ)))).map Prod.fst ↔
      (p : ℚ) / 250 * 100 < 60) ∧
    ("credit_utilization" ∈ ((component_scores p u l pr st).filter
        (fun kv => decide (kv.2 < (60 : ℚ)))).map Prod.fst ↔
      (u : ℚ) / 200 * 100 < 60) ∧
    ("liquidity" ∈ ((component_scores p u l pr st).filter
        (fun kv => decide (kv.2 < (60 : ℚ)))).map Prod.fst ↔
      (l : ℚ) / 200 * 100 < 60) ∧
    ("profitability" ∈ ((component_scores p u l pr st).filter
        (fun kv => decide (kv.2 < (60 : ℚ)))).map Prod.fst ↔
      (pr : ℚ) / 150 * 100 < 60) ∧
    ("stability" ∈ ((component_scores p u l pr st).filter
        (fun kv => decide (kv.2 < (60 : ℚ)))).map Prod.fst ↔
      (st : ℚ) / 100 * 100 < 60) := by
  refine ⟨?_, ?_, ?_, ?_, ?_⟩
  · rw [mem_fst_filter_iff _ "payment_history" ((p : ℚ) / 250 * 100) _
      (by simp [component_scores]) (by intro w hw; simpa [component_scores] using hw)]
    simp
  · rw [mem_fst_filter_iff _ "credit_utilization" ((u : ℚ) / 200 * 100) _
      (by simp [component_scores]) (by intro w hw; simpa [component_scores] using hw)]
    simp
  · rw [mem_fst_filter_iff _ "liquidity" ((l : ℚ) / 200 * 100) _
      (by simp [component_scores]) (by intro w hw; simpa [component_scores] using hw)]
    simp
  · rw [mem_fst_filter_iff _ "profitability" ((pr : ℚ) / 150 * 100) _
      (by simp [component_scores]) (by intro w hw; simpa [component_scores] using hw)]
    simp
  · rw [mem_fst_filter_iff _ "stability" ((st : ℚ) / 100 * 100) _
      (by simp [component_scores]) (by intro w hw; simpa [component_scores] using hw)]
    simp

/-- C6: a component is listed in `strengths` exactly when its sub-score is at
least 80% of its maximum, and in `weaknesses` exactly when it is strictly
below 60% of its maximum (so exactly 80% is a strength and exactly 60% is in
neither list). -/
theorem C6_strengths_weaknesses_thresholds (transactions : List Transaction)
    (financial_data : FinancialData) (company : Company) (now : Int) :
    (("payment_history" ∈
        (credit_score_result transactions financial_data company now).strengths ↔
        (80 : ℚ) ≤ (calculate_payment_history_score transactions : ℚ) / 250 * 100) ∧
     ("credit_utilization" ∈
        (credit_score_result transactions financial_data company now).strengths ↔
        (80 : ℚ) ≤ (calculate_credit_utilization_score financial_data : ℚ) / 200 * 100) ∧
     ("liquidity" ∈
        (credit_score_result transactions financial_data company now).strengths ↔
        (80 : ℚ) ≤ (calculate_liquidity_score financial_data : ℚ) / 200 * 100) ∧
     ("profitability" ∈
        (credit_score_result transactions financial_data company now).strengths ↔
        (80 : ℚ) ≤ (calculate_profitability_score financial_data : ℚ) / 150 * 100) ∧
     ("stability" ∈
        (credit_score_result transactions financial_data company now).strengths ↔
        (80 : ℚ) ≤ (calculate_business_stability_score company now : ℚ) / 100 * 100)) ∧
    (("payment_history" ∈
        (credit_score_result transactions financial_data company now).weaknesses ↔
        (calculate_payment_history_score transactions : ℚ) / 250 * 100 < 60) ∧
     ("credit_utilization" ∈
        (credit_score_result transactions financial_data company now).weaknesses ↔
        (calculate_credit_utilization_score financial_data : ℚ) / 200 * 100 < 60) ∧
     ("liquidity" ∈
        (credit_score_result transactions financial_data company now).weaknesses ↔
        (calculate_liquidity_score financial_data : ℚ) / 200 * 100 < 60) ∧
     ("profitability" ∈
        (credit_score_result transactions financial_data company now).weaknesses ↔
        (calculate_profitability_score financial_data : ℚ) / 150 * 100 < 60) ∧
     ("stability" ∈
        (credit_score_result transactions financial_data company now).weaknesses ↔
        (calculate_business_stability_score company now : ℚ) / 100 * 100 < 60)) :=
  ⟨strengths_iff (calculate_payment_history_score transactions)
      (calculate_credit_utilization_score financial_data)
      (calculate_liquidity_score financial_data)
      (calculate_profitability_score financial_data)
      (calculate_business_stability_score company now),
   weaknesses_iff (calculate_payment_history_score transactions)
      (calculate_credit_utilization_score financial_data)
      (calculate_liquidity_score financial_data)
      (calculate_profitability_score financial_data)
      (calculate_business_stability_score company now)⟩

theorem C6_strengths_weaknesses_thresholds_witness :
    "liquidity" ∈ (credit_score_result []
      ⟨⟨⟨2, 4/5, 0⟩, ⟨0, 0, 0, 0, 0⟩, ⟨0, 0, 0⟩, ⟨0, 0, 0, 0, 0⟩⟩⟩
      ⟨none, none⟩ 0).strengths :=
  (C6_strengths_weaknesses_thresholds []
      ⟨⟨⟨2, 4/5, 0⟩, ⟨0, 0, 0, 0, 0⟩, ⟨0, 0, 0⟩, ⟨0, 0, 0, 0, 0⟩⟩⟩
      ⟨none, none⟩ 0).1.2.2.1.mpr (by norm_num [calculate_liquidity_score])

lemma bucketsLen_step (b : FlowBuckets) (txn : Transaction) :
    bucketsLen (bucketStep b txn) ≤ bucketsLen b + 1 := by
  unfold bucketStep
  split_ifs <;> simp [bucketsLen] <;> omega

lemma bucketsLen_foldl_le (txns : List Transaction) :
    ∀ b, bucketsLen (txns.foldl bucketStep b) ≤ bucketsLen b + txns.length := by
  induction txns with
  | nil =>
    intro b
    simp
  | cons t ts ih =>
    intro b
    have h1 := bucketsLen_step b t
    have h2 := ih (bucketStep b t)
    simp only [List.foldl_cons, List.length_cons]
    omega

/-- C10: the categorization loop is a first-match `if/elif` chain tested in
the order operating inflow ("revenue"), operating outflow
("expense"/"cost"/"salary"), investing outflow
("asset"/"equipment"/"investment"), financing inflow
("loan"/"equity"/"financing"); a transaction goes to the earliest matching
bucket only (so at most one bucket), unmatched transactions go nowhere, and
the loop adds at most one bucket entry per transaction overall. -/
theorem C10_first_match_single_bucket (b : FlowBuckets) (txn : Transaction)
    (txns : List Transaction) :
    (catMatches txn.category ["revenue"] = true →
      bucketStep b txn =
        { b with operating_inflows := b.operating_inflows ++ [txn.amount] }) ∧
    (catMatches txn.category ["revenue"] = false →
      catMatches txn.category ["expense", "cost", "salary"] = true →
      bucketStep b txn =
        { b with operating_outflows := b.operating_outflows ++ [|txn.amount|] }) ∧
    (catMatches txn.category ["revenue"] = false →
      catMatches txn.category ["expense", "cost", "salary"] = false →
      catMatches txn.category ["asset", "equipment", "investment"] = true →
      bucketStep b txn =
        { b with investing_outflows := b.investing_outflows ++ [|txn.amount|] }) ∧
    (catMatches txn.category ["revenue"] = false →
      catMatches txn.category ["expense", "cost", "salary"] = false →
      catMatches txn.category ["asset", "equipment", "investment"] = false →
      catMatches txn.category ["loan", "equity", "financing"] = true →
      bucketStep b txn =
        { b with financing_inflows := b.financing_inflows ++ [txn.amount] }) ∧
    (catMatches txn.category ["revenue"] = false →
      catMatches txn.category ["expense", "cost", "salary"] = false →
      catMatches txn.category ["asset", "equipment", "investment"] = false →
      catMatches txn.category ["loan", "equity", "financing"] = false →
      bucketStep b txn = b) ∧
    bucketsLen (bucketStep b txn) ≤ bucketsLen b + 1 ∧
    bucketsLen (txns.foldl bucketStep initialBuckets) ≤ txns.length := by
  refine ⟨?_, ?_, ?_, ?_, ?_, bucketsLen_step b txn, ?_⟩
  · intro h1
    simp [bucketStep, h1]
  · intro h1 h2
    simp [bucketStep, h1, h2]
  · intro h1 h2 h3
    simp [bucketStep, h1, h2, h3]
  · intro h1 h2 h3 h4
    simp [bucketStep, h1, h2, h3, h4]
  · intro h1 h2 h3 h4
    simp [bucketStep, h1, h2, h3, h4]
  · have h := bucketsLen_foldl_le txns initialBuckets
    simpa [initialBuckets, bucketsLen] using h

theorem C10_first_match_single_bucket_witness :
    catMatches (some "revenue expense") ["revenue"] = true ∧
    catMatches (some "revenue expense") ["expense", "cost", "salary"] = true ∧
    bucketStep initialBuckets ⟨0, 5, some "revenue expense"⟩ =
      { operating_inflows := [5], operating_outflows := [],
        investing_outflows := [], financing_inflows := [] } := by
  refine ⟨by decide, by decide, ?_⟩
  have h := (C10_first_match_single_bucket initialBuckets
    ⟨0, 5, some "revenue expense"⟩ []).1 (by decide)
  simpa [initialBuckets] using h

end FinCore
